import Mathlib

/-!
Shallow embedding of `src/skills/tokens/color-scale/algorithm.ts`.

Numbers are modelled by `ℚ`.  The transcendental library functions the
code calls (`Math.pow` with exponent `2.4` and `1/2.4`, `Math.cbrt`,
`Math.sqrt`, `Math.atan2`, `Math.cos`, `Math.sin`) are abstracted as the
fields of a `MathBackend` structure, so that every theorem quantified
over the backend holds for the actual floating-point implementation as
one instance.  The trigonometric fields work directly in degrees, folding
in the `· * Math.PI / 180` / `· * 180 / Math.PI` conversions the source
performs around them (π is irrational, so the conversion cannot live on
the `ℚ` side).  `Math.round` is `round` on `ℚ` (both round half toward
positive infinity); the JavaScript remainder operator `%` is `jsMod`
(remainder with the sign of the dividend).
-/

namespace ColorScale

/-- Abstract interface for the transcendental `Math` functions used by the
algorithm.  `pow24 x` stands for `Math.pow(x, 2.4)`, `powInv24 x` for
`Math.pow(x, 1/2.4)`, `atan2deg y x` for `Math.atan2(y, x) * 180 / Math.PI`,
`cosDeg h` for `Math.cos(h * Math.PI / 180)` and `sinDeg h` for
`Math.sin(h * Math.PI / 180)`. -/
structure MathBackend where
  pow24 : ℚ → ℚ
  powInv24 : ℚ → ℚ
  cbrt : ℚ → ℚ
  sqrt : ℚ → ℚ
  atan2deg : ℚ → ℚ → ℚ
  cosDeg : ℚ → ℚ
  sinDeg : ℚ → ℚ

/-- Truncation toward zero, as used by the JavaScript `%` operator. -/
def jsTrunc (q : ℚ) : ℤ := if 0 ≤ q then ⌊q⌋ else ⌈q⌉

/-- JavaScript remainder `a % n` for `n > 0`: remainder with the sign of
the dividend, `a - n * trunc (a / n)`. -/
def jsMod (a n : ℚ) : ℚ := a - n * (jsTrunc (a / n) : ℚ)

/-- Character class `[a-f\d]` with the `i` flag of the regular expression
in `hexToRgb` (source line 19): a decimal digit, a lowercase `a`–`f`
(code points 97–102) or an uppercase `A`–`F` (code points 65–70). -/
def isHexDigitCI (c : Char) : Bool :=
  (48 ≤ c.toNat && c.toNat ≤ 57) || (97 ≤ c.toNat && c.toNat ≤ 102) ||
    (65 ≤ c.toNat && c.toNat ≤ 70)

/-- Numeric value of a hexadecimal digit, as `parseInt(·, 16)` assigns it
(`'0'`–`'9'` ↦ 0–9, `'A'`–`'F'` ↦ 10–15, `'a'`–`'f'` ↦ 10–15). -/
def hexVal (c : Char) : ℕ :=
  if c.toNat ≤ 57 then c.toNat - 48
  else if c.toNat ≤ 70 then c.toNat - 55
  else c.toNat - 87

/-- Consume the optional leading `#` of the pattern `^#?…`. -/
def stripHash : List Char → List Char
  | '#' :: rest => rest
  | l => l

/-- Whether the regular expression
`^#?([a-f\d]{2})([a-f\d]{2})([a-f\d]{2})$` with flag `i` (source line 19)
matches the whole string: an optional `#` followed by exactly six
case-insensitive hexadecimal digits. -/
def matchesHex (s : String) : Bool :=
  let l := stripHash s.data
  l.length == 6 && l.all isHexDigitCI

/-- Source `hexToRgb` (lines 18–26): parse `#RRGGBB` into the three
channel values; on regex mismatch return `(0, 0, 0)`. -/
def hexToRgb (s : String) : ℚ × ℚ × ℚ :=
  if matchesHex s then
    match stripHash s.data with
    | r1 :: r2 :: g1 :: g2 :: b1 :: b2 :: _ =>
        (((16 * hexVal r1 + hexVal r2 : ℕ) : ℚ),
         ((16 * hexVal g1 + hexVal g2 : ℕ) : ℚ),
         ((16 * hexVal b1 + hexVal b2 : ℕ) : ℚ))
    | _ => (0, 0, 0)
  else (0, 0, 0)

/-- Channel preparation in `rgbToHex` (source line 31):
`Math.round(Math.max(0, Math.min(255, x)))`, as a natural number. -/
def clampByte (x : ℚ) : ℕ := (round (max 0 (min 255 x))).toNat

/-- Lowercase hexadecimal digit character, as produced by
`Number.prototype.toString(16)`. -/
def hexDigitChar (n : ℕ) : Char :=
  if n < 10 then Char.ofNat (48 + n) else Char.ofNat (87 + n)

/-- Two-digit lowercase hexadecimal rendering of a byte.  For `n < 16`
the high digit is `'0'`, which is exactly the `'0' + hex` padding the
source applies when `toString(16)` yields a single digit (line 32). -/
def byteToHex (n : ℕ) : List Char := [hexDigitChar (n / 16), hexDigitChar (n % 16)]

/-- Source `rgbToHex` (lines 29–34): clamp each channel to [0,255],
round, render as two lowercase hexadecimal digits, and join after `#`. -/
def rgbToHex (r g b : ℚ) : String :=
  String.mk ('#' :: (byteToHex (clampByte r) ++ byteToHex (clampByte g) ++
    byteToHex (clampByte b)))

/-- Source `srgbToLinear` (lines 37–40): gamma expansion. -/
def srgbToLinear (B : MathBackend) (c : ℚ) : ℚ :=
  let c := c / 255
  if c ≤ 0.04045 then c / 12.92 else B.pow24 ((c + 0.055) / 1.055)

/-- Source `linearToSrgb` (lines 43–48): gamma compression with clamping
to [0,1] and rounding to an integer channel value. -/
def linearToSrgb (B : MathBackend) (c : ℚ) : ℚ :=
  let clamped := max 0 (min 1 c)
  if clamped ≤ 0.0031308 then ((round (clamped * 12.92 * 255) : ℤ) : ℚ)
  else ((round ((1.055 * B.powInv24 clamped - 0.055) * 255) : ℤ) : ℚ)

/-- Source `rgbToOklch` (lines 51–73): LMS cone matrix, cube-root
nonlinearity, OKLab matrix, then polar conversion to `(L, C, H)` with the
hue normalized from `(-180, 180]` into `[0, 360)`. -/
def rgbToOklch (B : MathBackend) (r g b : ℚ) : ℚ × ℚ × ℚ :=
  let lr := srgbToLinear B r
  let lg := srgbToLinear B g
  let lb := srgbToLinear B b
  let l0 := 0.4122214708 * lr + 0.5363325363 * lg + 0.0514459929 * lb
  let m0 := 0.2119034982 * lr + 0.6806995451 * lg + 0.1073969566 * lb
  let s0 := 0.0883024619 * lr + 0.2817188376 * lg + 0.6299787005 * lb
  let l := B.cbrt l0
  let m := B.cbrt m0
  let s := B.cbrt s0
  let L := 0.2104542553 * l + 0.7936177850 * m - 0.0040720468 * s
  let a := 1.9779984951 * l - 2.4285922050 * m + 0.4505937099 * s
  let bVal := 0.0259040371 * l + 0.7827717662 * m - 0.8086757660 * s
  let C := B.sqrt (a * a + bVal * bVal)
  let H := B.atan2deg bVal a
  let H := if H < 0 then H + 360 else H
  (L, C, H)

/-- Source `oklchToRgb` (lines 76–93): polar to Cartesian OKLab, inverse
OKLab matrix, cube, inverse LMS matrix, then gamma compression. -/
def oklchToRgb (B : MathBackend) (L C H : ℚ) : ℚ × ℚ × ℚ :=
  let a := C * B.cosDeg H
  let b := C * B.sinDeg H
  let l0 := L + 0.3963377774 * a + 0.2158037573 * b
  let m0 := L - 0.1055613458 * a - 0.0638541728 * b
  let s0 := L - 0.0894841775 * a - 1.2914855480 * b
  let l := l0 * l0 * l0
  let m := m0 * m0 * m0
  let s := s0 * s0 * s0
  let lr := 4.0767416621 * l - 3.3077115913 * m + 0.2309699292 * s
  let lg := -1.2684380046 * l + 2.6097574011 * m - 0.3413193965 * s
  let lb := -0.0041960863 * l - 0.7034186147 * m + 1.7076147010 * s
  (linearToSrgb B lr, linearToSrgb B lg, linearToSrgb B lb)

/-- Source `rgbToHsl` (lines 96–112): standard max/min HSL derivation,
returning rounded integer degrees and percentages.  The `switch (max)`
statement matches the first of `r`, `g`, `b` that equals the maximum. -/
def rgbToHsl (r g b : ℚ) : ℤ × ℤ × ℤ :=
  let r := r / 255
  let g := g / 255
  let b := b / 255
  let mx := max r (max g b)
  let mn := min r (min g b)
  let l := (mx + mn) / 2
  let d := mx - mn
  let s := if mx = mn then 0 else if l > 0.5 then d / (2 - mx - mn) else d / (mx + mn)
  let h :=
    if mx = mn then 0
    else if mx = r then ((g - b) / d + (if g < b then 6 else 0)) / 6
    else if mx = g then ((b - r) / d + 2) / 6
    else ((r - g) / d + 4) / 6
  (round (h * 360), round (s * 100), round (l * 100))

/-- One entry of the scale: the record the source emits per step
(lines 118–124). -/
structure ColorStop where
  step : ℕ
  hex : String
  oklch : ℚ × ℚ × ℚ
  rgb : ℚ × ℚ × ℚ
  hsl : ℤ × ℤ × ℤ
deriving DecidableEq, Inhabited

/-- Source `LIGHTNESS_STOPS` (lines 127–139). -/
def LIGHTNESS_STOPS : List (ℕ × ℚ) :=
  [(50, 0.97), (100, 0.93), (200, 0.87), (300, 0.78), (400, 0.65), (500, 0.55),
   (600, 0.45), (700, 0.37), (800, 0.27), (900, 0.20), (950, 0.14)]

/-- Chroma multiplier of source line 148:
`L > 0.9 ? 0.3 : L < 0.2 ? 0.7 : 1`. -/
def chromaMultiplier (L : ℚ) : ℚ :=
  if L > 0.9 then 0.3 else if L < 0.2 then 0.7 else 1

/-- Source `generateColorScale` (lines 142–157). -/
def generateColorScale (B : MathBackend) (hex : String) : List ColorStop :=
  let rgb := hexToRgb hex
  let lch := rgbToOklch B rgb.1 rgb.2.1 rgb.2.2
  LIGHTNESS_STOPS.map (fun sl =>
    let adjustedC := lch.2.1 * chromaMultiplier sl.2
    let nrgb := oklchToRgb B sl.2 adjustedC lch.2.2
    { step := sl.1
      hex := rgbToHex nrgb.1 nrgb.2.1 nrgb.2.2
      oklch := (sl.2, adjustedC, lch.2.2)
      rgb := nrgb
      hsl := rgbToHsl nrgb.1 nrgb.2.1 nrgb.2.2 })

/-- Linear hue blend of source line 171:
`baseHue + (brandH - baseHue) * influence`. -/
def blendedHueOf (brandH baseHue influence : ℚ) : ℚ :=
  baseHue + (brandH - baseHue) * influence

/-- Hue normalization of source line 172:
`((blendedHue % 360) + 360) % 360` with the JavaScript `%`. -/
def normalizeHue (h : ℚ) : ℚ := jsMod (jsMod h 360 + 360) 360

/-- Source `generateHarmonizedSemantic` (lines 168–174). -/
def generateHarmonizedSemantic (B : MathBackend) (brandHex : String)
    (baseHue influence : ℚ) : String :=
  let rgb := hexToRgb brandHex
  let brandH := (rgbToOklch B rgb.1 rgb.2.1 rgb.2.2).2.2
  let normalizedHue := normalizeHue (blendedHueOf brandH baseHue influence)
  let out := oklchToRgb B 0.55 0.15 normalizedHue
  rgbToHex out.1 out.2.1 out.2.2

/-- Result shape of `generateSemanticColors` (lines 177–184): an object
with exactly the four keys `success`, `warning`, `error`, `info`. -/
structure SemanticColors where
  success : List ColorStop
  warning : List ColorStop
  error : List ColorStop
  info : List ColorStop

/-- Source `generateSemanticColors` (lines 177–184). -/
def generateSemanticColors (B : MathBackend) (brandHex : String) : SemanticColors :=
  { success := generateColorScale B (generateHarmonizedSemantic B brandHex 145 0.10)
    warning := generateColorScale B (generateHarmonizedSemantic B brandHex 70 0.10)
    error := generateColorScale B (generateHarmonizedSemantic B brandHex 25 0.08)
    info := generateColorScale B (generateHarmonizedSemantic B brandHex 250 0.15) }

/-- Lowercase hexadecimal digit (the alphabet of `toString(16)` output),
used to state the output format `/^#[0-9a-f]\x7b6\x7d$/`. -/
def isLowerHexDigit (c : Char) : Bool :=
  (48 ≤ c.toNat && c.toNat ≤ 57) || (97 ≤ c.toNat && c.toNat ≤ 102)

/-- Decidable rendering of the output pattern `/^#[0-9a-f]\x7b6\x7d$/`:
a `#` followed by exactly six lowercase hexadecimal digits. -/
def isValidHexColor (s : String) : Bool :=
  match s.data with
  | '#' :: rest => rest.length == 6 && rest.all isLowerHexDigit
  | _ => false

/-- Concrete backend instance used to instantiate universally quantified
theorems at a specific input: each transcendental function is replaced by
a simple total rational stand-in (any inhabitant of `MathBackend` serves,
since the theorems hold for every backend). -/
def testBackend : MathBackend where
  pow24 := fun q => q
  powInv24 := fun q => q
  cbrt := fun q => q
  sqrt := fun q => q
  atan2deg := fun y x => y - x
  cosDeg := fun q => q
  sinDeg := fun q => q

end ColorScale

namespace ColorScale

/-! Helper lemmas shared by the claim theorems. -/

lemma round_nat_bounds {x : ℚ} {n : ℕ} (h0 : 0 ≤ x) (h1 : x ≤ (n : ℚ)) :
    0 ≤ round x ∧ round x ≤ (n : ℤ) := by
  rw [round_eq]
  refine ⟨Int.floor_nonneg.mpr (by linarith), ?_⟩
  have h2 : x + 1 / 2 ≤ (n : ℚ) + 1 / 2 := by linarith
  have h3 := Int.floor_mono h2
  have h4 : ⌊(n : ℚ) + 1 / 2⌋ = (n : ℤ) := by
    rw [Int.floor_nat_add]
    norm_num
  omega

lemma clampByte_le (x : ℚ) : clampByte x ≤ 255 := by
  unfold clampByte
  have h0 : (0 : ℚ) ≤ max 0 (min 255 x) := le_max_left _ _
  have h1 : max 0 (min 255 x) ≤ ((255 : ℕ) : ℚ) :=
    max_le (by norm_num) (le_trans (min_le_left (255 : ℚ) x) (by norm_num))
  have h2 := round_nat_bounds h0 h1
  omega

lemma isLowerHexDigit_hexDigitChar {n : ℕ} (h : n ≤ 15) :
    isLowerHexDigit (hexDigitChar n) = true := by
  interval_cases n <;> decide

lemma byteToHex_all {n : ℕ} (h : n ≤ 255) :
    (byteToHex n).all isLowerHexDigit = true := by
  simp only [byteToHex, List.all_cons, List.all_nil, Bool.and_true, Bool.and_eq_true]
  exact ⟨isLowerHexDigit_hexDigitChar (by omega), isLowerHexDigit_hexDigitChar (by omega)⟩

lemma byteToHex_length (n : ℕ) : (byteToHex n).length = 2 := rfl

lemma rgbToHex_valid (r g b : ℚ) : isValidHexColor (rgbToHex r g b) = true := by
  have hr := byteToHex_all (clampByte_le r)
  have hg := byteToHex_all (clampByte_le g)
  have hb := byteToHex_all (clampByte_le b)
  show ((byteToHex (clampByte r) ++ byteToHex (clampByte g) ++ byteToHex (clampByte b)).length == 6 &&
      (byteToHex (clampByte r) ++ byteToHex (clampByte g) ++ byteToHex (clampByte b)).all
        isLowerHexDigit) = true
  simp [List.all_append, List.length_append, byteToHex_length, hr, hg, hb]

end ColorScale

namespace ColorScale

lemma hexVal_le {c : Char} (h : isHexDigitCI c = true) : hexVal c ≤ 15 := by
  unfold isHexDigitCI at h
  simp only [Bool.or_eq_true, Bool.and_eq_true, decide_eq_true_eq] at h
  unfold hexVal
  split_ifs <;> omega

lemma hexToRgb_not_matches {s : String} (h : matchesHex s = false) :
    hexToRgb s = (0, 0, 0) := by
  simp [hexToRgb, h]

lemma list_shape_six {α : Type} {l : List α} (h : l.length = 6) :
    ∃ a b c d e f, l = [a, b, c, d, e, f] := by
  cases l with
  | nil => simp at h
  | cons a l =>
  cases l with
  | nil => simp at h
  | cons b l =>
  cases l with
  | nil => simp at h
  | cons c l =>
  cases l with
  | nil => simp at h
  | cons d l =>
  cases l with
  | nil => simp at h
  | cons e l =>
  cases l with
  | nil => simp at h
  | cons f l =>
  cases l with
  | cons g l =>
    simp only [List.length_cons] at h
    omega
  | nil => exact ⟨a, b, c, d, e, f, rfl⟩

lemma scale_L_map (B : MathBackend) (hex : String) :
    (generateColorScale B hex).map (fun st => st.oklch.1) =
      [0.97, 0.93, 0.87, 0.78, 0.65, 0.55, 0.45, 0.37, 0.27, 0.20, 0.14] := rfl

lemma scale_steps (B : MathBackend) (hex : String) :
    (generateColorScale B hex).map ColorStop.step =
      [50, 100, 200, 300, 400, 500, 600, 700, 800, 900, 950] := rfl

lemma scale_length (B : MathBackend) (hex : String) :
    (generateColorScale B hex).length = 11 := rfl

lemma scale_L_chain (B : MathBackend) (hex : String) :
    List.Chain' (· > ·) ((generateColorScale B hex).map (fun st => st.oklch.1)) := by
  rw [scale_L_map]
  norm_num [List.chain'_cons, List.chain'_singleton]

lemma generateColorScale_congr (B : MathBackend) {s t : String}
    (h : hexToRgb s = hexToRgb t) :
    generateColorScale B s = generateColorScale B t := by
  unfold generateColorScale
  rw [h]

end ColorScale

namespace ColorScale

/-- Lightness component of `rgbToHsl` before rounding, on channels already
divided by 255. -/
def lAux (r g b : ℚ) : ℚ := (max r (max g b) + min r (min g b)) / 2

/-- Saturation component of `rgbToHsl` before rounding, on channels already
divided by 255. -/
def sAux (r g b : ℚ) : ℚ :=
  let mx := max r (max g b)
  let mn := min r (min g b)
  if mx = mn then 0
  else if (mx + mn) / 2 > 0.5 then (mx - mn) / (2 - mx - mn)
  else (mx - mn) / (mx + mn)

/-- Hue fraction of `rgbToHsl` before scaling to degrees and rounding, on
channels already divided by 255. -/
def hAux (r g b : ℚ) : ℚ :=
  let mx := max r (max g b)
  let mn := min r (min g b)
  if mx = mn then 0
  else if mx = r then ((g - b) / (mx - mn) + (if g < b then 6 else 0)) / 6
  else if mx = g then ((b - r) / (mx - mn) + 2) / 6
  else ((r - g) / (mx - mn) + 4) / 6

lemma rgbToHsl_eq (r g b : ℚ) :
    rgbToHsl r g b =
      (round (hAux (r / 255) (g / 255) (b / 255) * 360),
       round (sAux (r / 255) (g / 255) (b / 255) * 100),
       round (lAux (r / 255) (g / 255) (b / 255) * 100)) := rfl

lemma lAux_bounds {r g b : ℚ} (hr0 : 0 ≤ r) (hr1 : r ≤ 1) (hg0 : 0 ≤ g) (hg1 : g ≤ 1)
    (hb0 : 0 ≤ b) (hb1 : b ≤ 1) : 0 ≤ lAux r g b ∧ lAux r g b ≤ 1 := by
  unfold lAux
  have h1 : (0 : ℚ) ≤ max r (max g b) := le_trans hr0 (le_max_left _ _)
  have h2 : (0 : ℚ) ≤ min r (min g b) := le_min hr0 (le_min hg0 hb0)
  have h3 : max r (max g b) ≤ 1 := max_le hr1 (max_le hg1 hb1)
  have h4 : min r (min g b) ≤ 1 := le_trans (min_le_left _ _) hr1
  constructor <;> linarith

lemma sAux_bounds {r g b : ℚ} (hr0 : 0 ≤ r) (hr1 : r ≤ 1) (hg0 : 0 ≤ g) (hg1 : g ≤ 1)
    (hb0 : 0 ≤ b) (hb1 : b ≤ 1) : 0 ≤ sAux r g b ∧ sAux r g b ≤ 1 := by
  have hmx1 : max r (max g b) ≤ 1 := max_le hr1 (max_le hg1 hb1)
  have hmn0 : (0 : ℚ) ≤ min r (min g b) := le_min hr0 (le_min hg0 hb0)
  have hmnmx : min r (min g b) ≤ max r (max g b) :=
    le_trans (min_le_left _ _) (le_max_left _ _)
  by_cases h1 : max r (max g b) = min r (min g b)
  · simp only [sAux, if_pos h1]
    norm_num
  · have hlt : min r (min g b) < max r (max g b) := lt_of_le_of_ne hmnmx (fun e => h1 e.symm)
    by_cases h2 : (max r (max g b) + min r (min g b)) / 2 > 0.5
    · have hden : 0 < 2 - max r (max g b) - min r (min g b) := by linarith
      simp only [sAux, if_neg h1, if_pos h2]
      refine ⟨div_nonneg (by linarith) (by linarith), ?_⟩
      rw [div_le_one hden]
      linarith
    · have hden : 0 < max r (max g b) + min r (min g b) := by linarith
      simp only [sAux, if_neg h1, if_neg h2]
      refine ⟨div_nonneg (by linarith) (by linarith), ?_⟩
      rw [div_le_one hden]
      linarith

lemma hAux_bounds (r g b : ℚ) : 0 ≤ hAux r g b ∧ hAux r g b ≤ 1 := by
  have hmnr : min r (min g b) ≤ r := min_le_left _ _
  have hmng : min r (min g b) ≤ g := le_trans (min_le_right _ _) (min_le_left _ _)
  have hmnb : min r (min g b) ≤ b := le_trans (min_le_right _ _) (min_le_right _ _)
  have hmxr : r ≤ max r (max g b) := le_max_left _ _
  have hmxg : g ≤ max r (max g b) := le_trans (le_max_left _ _) (le_max_right _ _)
  have hmxb : b ≤ max r (max g b) := le_trans (le_max_right _ _) (le_max_right _ _)
  have hmnmx : min r (min g b) ≤ max r (max g b) := le_trans hmnr hmxr
  by_cases h1 : max r (max g b) = min r (min g b)
  · simp only [hAux, if_pos h1]
    norm_num
  · have hlt : min r (min g b) < max r (max g b) := lt_of_le_of_ne hmnmx (fun e => h1 e.symm)
    have hd : 0 < max r (max g b) - min r (min g b) := by linarith
    by_cases h2 : max r (max g b) = r
    · by_cases h3 : g < b
      · have q1 : (g - b) / (max r (max g b) - min r (min g b)) ≤ 0 :=
          div_nonpos_iff.mpr (Or.inr ⟨by linarith, by linarith⟩)
        have q2 : (-1 : ℚ) ≤ (g - b) / (max r (max g b) - min r (min g b)) :=
          (le_div_iff₀ hd).mpr (by linarith)
        simp only [hAux, if_neg h1, if_pos h2, if_pos h3]
        constructor <;> linarith
      · have q1 : (g - b) / (max r (max g b) - min r (min g b)) ≤ 1 :=
          (div_le_one hd).mpr (by linarith)
        have q2 : (0 : ℚ) ≤ (g - b) / (max r (max g b) - min r (min g b)) :=
          div_nonneg (by linarith [not_lt.mp h3]) hd.le
        simp only [hAux, if_neg h1, if_pos h2, if_neg h3]
        constructor <;> linarith
    · by_cases h4 : max r (max g b) = g
      · have q1 : (b - r) / (max r (max g b) - min r (min g b)) ≤ 1 :=
          (div_le_one hd).mpr (by linarith)
        have q2 : (-1 : ℚ) ≤ (b - r) / (max r (max g b) - min r (min g b)) :=
          (le_div_iff₀ hd).mpr (by linarith)
        simp only [hAux, if_neg h1, if_neg h2, if_pos h4]
        constructor <;> linarith
      · have q1 : (r - g) / (max r (max g b) - min r (min g b)) ≤ 1 :=
          (div_le_one hd).mpr (by linarith)
        have q2 : (-1 : ℚ) ≤ (r - g) / (max r (max g b) - min r (min g b)) :=
          (le_div_iff₀ hd).mpr (by linarith)
        simp only [hAux, if_neg h1, if_neg h2, if_neg h4]
        constructor <;> linarith

end ColorScale

namespace ColorScale

lemma jsMod_360_bounds (a : ℚ) : -360 < jsMod a 360 ∧ jsMod a 360 < 360 := by
  unfold jsMod jsTrunc
  have h3 : a / 360 * 360 = a := div_mul_cancel₀ a (by norm_num)
  by_cases h : 0 ≤ a / 360
  · rw [if_pos h]
    have h1 : (⌊a / 360⌋ : ℚ) ≤ a / 360 := Int.floor_le _
    have h2 : a / 360 < ⌊a / 360⌋ + 1 := Int.lt_floor_add_one _
    have h0 : (0 : ℚ) ≤ (⌊a / 360⌋ : ℚ) := by
      exact_mod_cast Int.floor_nonneg.mpr h
    constructor <;> linarith
  · rw [if_neg h]
    have h1 : a / 360 ≤ (⌈a / 360⌉ : ℚ) := Int.le_ceil _
    have h2 : (⌈a / 360⌉ : ℚ) < a / 360 + 1 := Int.ceil_lt_add_one _
    constructor <;> linarith

lemma jsMod_360_of_nonneg {a : ℚ} (h : 0 ≤ a) : 0 ≤ jsMod a 360 := by
  unfold jsMod jsTrunc
  have h3 : a / 360 * 360 = a := div_mul_cancel₀ a (by norm_num)
  rw [if_pos (by positivity : (0 : ℚ) ≤ a / 360)]
  have h1 : (⌊a / 360⌋ : ℚ) ≤ a / 360 := Int.floor_le _
  linarith

lemma normalizeHue_mem (a : ℚ) : 0 ≤ normalizeHue a ∧ normalizeHue a < 360 := by
  unfold normalizeHue
  have hb := jsMod_360_bounds a
  have hnn : 0 ≤ jsMod a 360 + 360 := by linarith [hb.1]
  exact ⟨jsMod_360_of_nonneg hnn, (jsMod_360_bounds (jsMod a 360 + 360)).2⟩

lemma clamp_idem (x : ℚ) : max 0 (min 255 (max 0 (min 255 x))) = max 0 (min 255 x) := by
  have h0 : (0 : ℚ) ≤ max 0 (min 255 x) := le_max_left _ _
  have h1 : max 0 (min 255 x) ≤ 255 := max_le (by norm_num) (min_le_left _ _)
  rw [min_eq_right h1, max_eq_right h0]

lemma scale_hex_all (B : MathBackend) (hex : String) :
    (generateColorScale B hex).all (fun st => isValidHexColor st.hex) = true := by
  simp [generateColorScale, LIGHTNESS_STOPS, List.all_cons, List.all_nil, rgbToHex_valid]

end ColorScale

namespace ColorScale

lemma testBackend_chroma_pos :
    0 < (rgbToOklch testBackend (hexToRgb "#3B82F6").1 (hexToRgb "#3B82F6").2.1
      (hexToRgb "#3B82F6").2.2).2.1 := by
  rw [show hexToRgb "#3B82F6" = (59, 130, 246) from rfl]
  norm_num [rgbToOklch, srgbToLinear, testBackend]

/-- C1: the hue blend of `generateHarmonizedSemantic` is the linear
interpolation `baseHue + (brandH - baseHue) * influence` followed only by
modulo normalization into [0, 360); at brand hue 350°, base hue 10° and
influence 0.5 the blended hue is exactly 180° — the naive unwrapped
average — which lies outside the short arc [350, 360) ∪ [0, 10], so the
code does not wrap the blend through the 0°/360° boundary as the claim
requires.  This records the code-bug evidence for the claim. -/
theorem generateHarmonizedSemantic_blend_misses_short_arc :
    (∀ (B : MathBackend) (hex : String) (baseHue influence : ℚ),
        generateHarmonizedSemantic B hex baseHue influence =
          rgbToHex
            (oklchToRgb B 0.55 0.15 (normalizeHue (blendedHueOf
              (rgbToOklch B (hexToRgb hex).1 (hexToRgb hex).2.1 (hexToRgb hex).2.2).2.2
              baseHue influence))).1
            (oklchToRgb B 0.55 0.15 (normalizeHue (blendedHueOf
              (rgbToOklch B (hexToRgb hex).1 (hexToRgb hex).2.1 (hexToRgb hex).2.2).2.2
              baseHue influence))).2.1
            (oklchToRgb B 0.55 0.15 (normalizeHue (blendedHueOf
              (rgbToOklch B (hexToRgb hex).1 (hexToRgb hex).2.1 (hexToRgb hex).2.2).2.2
              baseHue influence))).2.2) ∧
    normalizeHue (blendedHueOf 350 10 0.5) = 180 ∧
    ¬((350 ≤ normalizeHue (blendedHueOf 350 10 0.5) ∧
        normalizeHue (blendedHueOf 350 10 0.5) < 360) ∨
      (0 ≤ normalizeHue (blendedHueOf 350 10 0.5) ∧
        normalizeHue (blendedHueOf 350 10 0.5) ≤ 10)) := by
  have hb : blendedHueOf 350 10 0.5 = 180 := by norm_num [blendedHueOf]
  have t1 : jsMod (180 : ℚ) 360 = 180 := by
    unfold jsMod jsTrunc
    rw [if_pos (by norm_num : (0 : ℚ) ≤ 180 / 360)]
    rw [show ⌊(180 : ℚ) / 360⌋ = 0 by norm_num [Int.floor_eq_iff]]
    norm_num
  have t2 : jsMod (540 : ℚ) 360 = 180 := by
    unfold jsMod jsTrunc
    rw [if_pos (by norm_num : (0 : ℚ) ≤ 540 / 360)]
    rw [show ⌊(540 : ℚ) / 360⌋ = 1 by norm_num [Int.floor_eq_iff]]
    norm_num
  have e : normalizeHue (blendedHueOf 350 10 0.5) = 180 := by
    unfold normalizeHue
    rw [hb, t1, show (180 : ℚ) + 360 = 540 by norm_num, t2]
  refine ⟨fun B hex baseHue influence => rfl, e, ?_⟩
  rw [e]
  norm_num

/-- C3: for every input hex string, the 11 stops of `generateColorScale`,
taken in order (which is ascending step order), have strictly decreasing
OKLCH lightness, the first component of each stop's `oklch` field. -/
theorem generateColorScale_lightness_strictly_decreasing (B : MathBackend) (hex : String) :
    List.Chain' (· > ·) ((generateColorScale B hex).map (fun st => st.oklch.1)) :=
  scale_L_chain B hex

/-- C4: `generateColorScale "#3B82F6"` returns exactly 11 stops whose step
values are 50, 100, 200, 300, 400, 500, 600, 700, 800, 900, 950 in that
order, and every stop's `hex` field is a `#` followed by exactly six
lowercase hexadecimal digits. -/
theorem generateColorScale_brand_blue_shape (B : MathBackend) :
    (generateColorScale B "#3B82F6").length = 11 ∧
    (generateColorScale B "#3B82F6").map ColorStop.step =
      [50, 100, 200, 300, 400, 500, 600, 700, 800, 900, 950] ∧
    (generateColorScale B "#3B82F6").all (fun st => isValidHexColor st.hex) = true :=
  ⟨scale_length B _, scale_steps B _, scale_hex_all B _⟩

/-- C5: every stop's stored chroma equals the brand chroma (the `C` that
`rgbToOklch` extracts from the parsed input) times the multiplier 0.3 when
the stop lightness exceeds 0.9, 0.7 when it is below 0.2, and 1 otherwise;
consequently, whenever the brand chroma is positive (as for `"#3B82F6"`),
stop 50 (index 0) and stop 950 (index 10) have strictly smaller chroma
than stop 500 (index 5). -/
theorem generateColorScale_chroma_compensation (B : MathBackend) (hex : String) :
    (∀ i : ℕ, i < 11 →
        ((generateColorScale B hex).getD i default).oklch.2.1 =
          (rgbToOklch B (hexToRgb hex).1 (hexToRgb hex).2.1 (hexToRgb hex).2.2).2.1 *
            chromaMultiplier ((generateColorScale B hex).getD i default).oklch.1) ∧
    (0 < (rgbToOklch B (hexToRgb hex).1 (hexToRgb hex).2.1 (hexToRgb hex).2.2).2.1 →
      ((generateColorScale B hex).getD 0 default).oklch.2.1 <
          ((generateColorScale B hex).getD 5 default).oklch.2.1 ∧
        ((generateColorScale B hex).getD 10 default).oklch.2.1 <
          ((generateColorScale B hex).getD 5 default).oklch.2.1) := by
  constructor
  · intro i hi
    interval_cases i <;> rfl
  · intro hC
    have e0 : ((generateColorScale B hex).getD 0 default).oklch.2.1 =
        (rgbToOklch B (hexToRgb hex).1 (hexToRgb hex).2.1 (hexToRgb hex).2.2).2.1 *
          chromaMultiplier 0.97 := rfl
    have e5 : ((generateColorScale B hex).getD 5 default).oklch.2.1 =
        (rgbToOklch B (hexToRgb hex).1 (hexToRgb hex).2.1 (hexToRgb hex).2.2).2.1 *
          chromaMultiplier 0.55 := rfl
    have e10 : ((generateColorScale B hex).getD 10 default).oklch.2.1 =
        (rgbToOklch B (hexToRgb hex).1 (hexToRgb hex).2.1 (hexToRgb hex).2.2).2.1 *
          chromaMultiplier 0.14 := rfl
    have m0 : chromaMultiplier 0.97 = 0.3 := by norm_num [chromaMultiplier]
    have m5 : chromaMultiplier 0.55 = 1 := by norm_num [chromaMultiplier]
    have m10 : chromaMultiplier 0.14 = 0.7 := by norm_num [chromaMultiplier]
    rw [e0, e5, e10, m0, m5, m10]
    constructor <;> nlinarith

/-- C5 witness: the chroma rule and the concrete comparisons instantiated
at the backend `testBackend` and the brand color `"#3B82F6"`, whose brand
chroma is positive. -/
theorem generateColorScale_chroma_compensation_witness :
    ((0 : ℕ) < 11 ∧
      ((generateColorScale testBackend "#3B82F6").getD 0 default).oklch.2.1 =
        (rgbToOklch testBackend (hexToRgb "#3B82F6").1 (hexToRgb "#3B82F6").2.1
            (hexToRgb "#3B82F6").2.2).2.1 *
          chromaMultiplier ((generateColorScale testBackend "#3B82F6").getD 0 default).oklch.1) ∧
    (0 < (rgbToOklch testBackend (hexToRgb "#3B82F6").1 (hexToRgb "#3B82F6").2.1
        (hexToRgb "#3B82F6").2.2).2.1 ∧
      (((generateColorScale testBackend "#3B82F6").getD 0 default).oklch.2.1 <
          ((generateColorScale testBackend "#3B82F6").getD 5 default).oklch.2.1 ∧
        ((generateColorScale testBackend "#3B82F6").getD 10 default).oklch.2.1 <
          ((generateColorScale testBackend "#3B82F6").getD 5 default).oklch.2.1)) :=
  ⟨⟨by decide, (generateColorScale_chroma_compensation testBackend "#3B82F6").1 0 (by decide)⟩,
   testBackend_chroma_pos,
   (generateColorScale_chroma_compensation testBackend "#3B82F6").2 testBackend_chroma_pos⟩

end ColorScale

namespace ColorScale

/-- C6: `generateSemanticColors` returns exactly the four keys `success`,
`warning`, `error`, `info`; each value is `generateColorScale` applied to
the harmonized hex built (via `generateHarmonizedSemantic`) from a
synthetic color at L = 0.55, C = 0.15 and the hue
`baseHue + (brandHue - baseHue) * influence` normalized into [0, 360),
with base hues 145°, 70°, 25°, 250° and influences 0.10, 0.10, 0.08, 0.15
respectively; and each of the four scales is an 11-stop list whose OKLCH
lightness values are strictly decreasing. -/
theorem generateSemanticColors_keys_and_scales (B : MathBackend) (brandHex : String) :
    (∀ baseHue influence : ℚ,
        generateHarmonizedSemantic B brandHex baseHue influence =
          rgbToHex
            (oklchToRgb B 0.55 0.15 (normalizeHue (blendedHueOf
              (rgbToOklch B (hexToRgb brandHex).1 (hexToRgb brandHex).2.1
                (hexToRgb brandHex).2.2).2.2 baseHue influence))).1
            (oklchToRgb B 0.55 0.15 (normalizeHue (blendedHueOf
              (rgbToOklch B (hexToRgb brandHex).1 (hexToRgb brandHex).2.1
                (hexToRgb brandHex).2.2).2.2 baseHue influence))).2.1
            (oklchToRgb B 0.55 0.15 (normalizeHue (blendedHueOf
              (rgbToOklch B (hexToRgb brandHex).1 (hexToRgb brandHex).2.1
                (hexToRgb brandHex).2.2).2.2 baseHue influence))).2.2 ∧
        0 ≤ normalizeHue (blendedHueOf
              (rgbToOklch B (hexToRgb brandHex).1 (hexToRgb brandHex).2.1
                (hexToRgb brandHex).2.2).2.2 baseHue influence) ∧
        normalizeHue (blendedHueOf
              (rgbToOklch B (hexToRgb brandHex).1 (hexToRgb brandHex).2.1
                (hexToRgb brandHex).2.2).2.2 baseHue influence) < 360) ∧
    (generateSemanticColors B brandHex).success =
        generateColorScale B (generateHarmonizedSemantic B brandHex 145 0.10) ∧
    (generateSemanticColors B brandHex).warning =
        generateColorScale B (generateHarmonizedSemantic B brandHex 70 0.10) ∧
    (generateSemanticColors B brandHex).error =
        generateColorScale B (generateHarmonizedSemantic B brandHex 25 0.08) ∧
    (generateSemanticColors B brandHex).info =
        generateColorScale B (generateHarmonizedSemantic B brandHex 250 0.15) ∧
    ((generateSemanticColors B brandHex).success.length = 11 ∧
      List.Chain' (· > ·)
        ((generateSemanticColors B brandHex).success.map (fun st => st.oklch.1))) ∧
    ((generateSemanticColors B brandHex).warning.length = 11 ∧
      List.Chain' (· > ·)
        ((generateSemanticColors B brandHex).warning.map (fun st => st.oklch.1))) ∧
    ((generateSemanticColors B brandHex).error.length = 11 ∧
      List.Chain' (· > ·)
        ((generateSemanticColors B brandHex).error.map (fun st => st.oklch.1))) ∧
    ((generateSemanticColors B brandHex).info.length = 11 ∧
      List.Chain' (· > ·)
        ((generateSemanticColors B brandHex).info.map (fun st => st.oklch.1))) :=
  ⟨fun _ _ =>
      ⟨rfl, (normalizeHue_mem _).1, (normalizeHue_mem _).2⟩,
   rfl, rfl, rfl, rfl,
   ⟨scale_length B _, scale_L_chain B _⟩,
   ⟨scale_length B _, scale_L_chain B _⟩,
   ⟨scale_length B _, scale_L_chain B _⟩,
   ⟨scale_length B _, scale_L_chain B _⟩⟩

/-- C7: `hexToRgb` returns `(0, 0, 0)` for every string the regular
expression rejects, and for every accepted string it returns the three
parsed channel values, which are natural numbers at most 255. -/
theorem hexToRgb_parse_or_fallback (s : String) :
    (matchesHex s = false → hexToRgb s = (0, 0, 0)) ∧
    (matchesHex s = true → ∃ r g b : ℕ, r ≤ 255 ∧ g ≤ 255 ∧ b ≤ 255 ∧
      hexToRgb s = ((r : ℚ), (g : ℚ), (b : ℚ))) := by
  constructor
  · exact fun h => hexToRgb_not_matches h
  · intro h
    have h' := h
    simp only [matchesHex, Bool.and_eq_true, beq_iff_eq] at h'
    obtain ⟨a, b, c, d, e, f, heq⟩ := list_shape_six h'.1
    have hall := h'.2
    rw [heq] at hall
    simp only [List.all_cons, List.all_nil, Bool.and_eq_true, Bool.and_true] at hall
    obtain ⟨ha, hb, hc, hd, he, hf⟩ := hall
    refine ⟨16 * hexVal a + hexVal b, 16 * hexVal c + hexVal d, 16 * hexVal e + hexVal f,
      ?_, ?_, ?_, ?_⟩
    · have := hexVal_le ha
      have := hexVal_le hb
      omega
    · have := hexVal_le hc
      have := hexVal_le hd
      omega
    · have := hexVal_le he
      have := hexVal_le hf
      omega
    · unfold hexToRgb
      rw [if_pos h, heq]

/-- C7 witness: the fallback branch instantiated at `"not-a-color"` and
the parsing branch instantiated at `"#3B82F6"`. -/
theorem hexToRgb_parse_or_fallback_witness :
    (matchesHex "not-a-color" = false ∧ hexToRgb "not-a-color" = (0, 0, 0)) ∧
    (matchesHex "#3B82F6" = true ∧ ∃ r g b : ℕ, r ≤ 255 ∧ g ≤ 255 ∧ b ≤ 255 ∧
      hexToRgb "#3B82F6" = ((r : ℚ), (g : ℚ), (b : ℚ))) :=
  ⟨⟨by decide, (hexToRgb_parse_or_fallback "not-a-color").1 (by decide)⟩,
   ⟨by decide, (hexToRgb_parse_or_fallback "#3B82F6").2 (by decide)⟩⟩

/-- C8: `rgbToHex` always produces a `#` followed by exactly six lowercase
hexadecimal digits, its result only depends on the channels after clamping
to [0, 255], and at the out-of-range input (300, -10, 128) the encoded
bytes are ff, 00 and 80. -/
theorem rgbToHex_defensive_clamping :
    (∀ r g b : ℚ, isValidHexColor (rgbToHex r g b) = true ∧
        rgbToHex r g b =
          rgbToHex (max 0 (min 255 r)) (max 0 (min 255 g)) (max 0 (min 255 b))) ∧
    rgbToHex 300 (-10) 128 = "#ff0080" := by
  constructor
  · intro r g b
    refine ⟨rgbToHex_valid r g b, ?_⟩
    unfold rgbToHex clampByte
    rw [clamp_idem r, clamp_idem g, clamp_idem b]
  · have c1 : clampByte 300 = 255 := by
      unfold clampByte
      rw [show max 0 (min 255 (300 : ℚ)) = 255 by norm_num [min_def, max_def]]
      simp
    have c2 : clampByte (-10) = 0 := by
      unfold clampByte
      rw [show max 0 (min 255 (-10 : ℚ)) = 0 by norm_num [min_def, max_def]]
      simp
    have c3 : clampByte 128 = 128 := by
      unfold clampByte
      rw [show max 0 (min 255 (128 : ℚ)) = 128 by norm_num [min_def, max_def]]
      simp
    unfold rgbToHex
    rw [c1, c2, c3]
    decide

end ColorScale

namespace ColorScale

/-- C9 counterexample: at the valid integer input (255, 0, 1) the hue
returned by `rgbToHsl` is exactly 360, which is not in [0, 360): the hue
fraction is 1529/1530 and `Math.round` carries 359.76…° up to 360°. -/
theorem rgbToHsl_hue_reaches_360 :
    rgbToHsl 255 0 1 = (360, 100, 50) ∧ ¬((rgbToHsl 255 0 1).1 < 360) := by
  have ha : hAux (255 / 255 : ℚ) (0 / 255) (1 / 255) = 1529 / 1530 := by
    norm_num [hAux, max_def, min_def]
  have hs : sAux (255 / 255 : ℚ) (0 / 255) (1 / 255) = 1 := by
    norm_num [sAux, max_def, min_def]
  have hl : lAux (255 / 255 : ℚ) (0 / 255) (1 / 255) = 1 / 2 := by
    norm_num [lAux, max_def, min_def]
  have r1 : round ((1529 / 1530 : ℚ) * 360) = 360 := by
    rw [round_eq, show (1529 / 1530 : ℚ) * 360 + 1 / 2 = 12249 / 34 by norm_num]
    norm_num [Int.floor_eq_iff]
  have r2 : round ((1 : ℚ) * 100) = 100 := by
    rw [one_mul]
    simp
  have r3 : round ((1 / 2 : ℚ) * 100) = 50 := by
    rw [show (1 / 2 : ℚ) * 100 = 50 by norm_num]
    simp
  have h : rgbToHsl 255 0 1 = (360, 100, 50) := by
    rw [rgbToHsl_eq, ha, hs, hl, r1, r2, r3]
  exact ⟨h, by rw [h]; decide⟩

/-- C9 (amended): for every integer RGB triple with channels in [0, 255],
`rgbToHsl` returns integer hue, saturation and lightness with the hue in
[0, 360] — the upper endpoint 360 is attainable, unlike the claimed
half-open range [0, 360) — and saturation and lightness in [0, 100]. -/
theorem rgbToHsl_component_ranges (r g b : ℕ) (hr : r ≤ 255) (hg : g ≤ 255) (hb : b ≤ 255) :
    0 ≤ (rgbToHsl r g b).1 ∧ (rgbToHsl r g b).1 ≤ 360 ∧
    0 ≤ (rgbToHsl r g b).2.1 ∧ (rgbToHsl r g b).2.1 ≤ 100 ∧
    0 ≤ (rgbToHsl r g b).2.2 ∧ (rgbToHsl r g b).2.2 ≤ 100 := by
  have hr0 : (0 : ℚ) ≤ (r : ℚ) / 255 := by positivity
  have hg0 : (0 : ℚ) ≤ (g : ℚ) / 255 := by positivity
  have hb0 : (0 : ℚ) ≤ (b : ℚ) / 255 := by positivity
  have hr1 : (r : ℚ) / 255 ≤ 1 := by
    rw [div_le_one (by norm_num)]
    exact_mod_cast hr
  have hg1 : (g : ℚ) / 255 ≤ 1 := by
    rw [div_le_one (by norm_num)]
    exact_mod_cast hg
  have hb1 : (b : ℚ) / 255 ≤ 1 := by
    rw [div_le_one (by norm_num)]
    exact_mod_cast hb
  obtain ⟨hh0, hh1⟩ := hAux_bounds ((r : ℚ) / 255) ((g : ℚ) / 255) ((b : ℚ) / 255)
  obtain ⟨hs0, hs1⟩ := sAux_bounds hr0 hr1 hg0 hg1 hb0 hb1
  obtain ⟨hl0, hl1⟩ := lAux_bounds hr0 hr1 hg0 hg1 hb0 hb1
  have H1 := round_nat_bounds
    (show (0 : ℚ) ≤ hAux ((r : ℚ) / 255) ((g : ℚ) / 255) ((b : ℚ) / 255) * 360 from
      mul_nonneg hh0 (by norm_num))
    (show hAux ((r : ℚ) / 255) ((g : ℚ) / 255) ((b : ℚ) / 255) * 360 ≤ ((360 : ℕ) : ℚ) from
      by push_cast; linarith)
  have H2 := round_nat_bounds
    (show (0 : ℚ) ≤ sAux ((r : ℚ) / 255) ((g : ℚ) / 255) ((b : ℚ) / 255) * 100 from
      mul_nonneg hs0 (by norm_num))
    (show sAux ((r : ℚ) / 255) ((g : ℚ) / 255) ((b : ℚ) / 255) * 100 ≤ ((100 : ℕ) : ℚ) from
      by push_cast; linarith)
  have H3 := round_nat_bounds
    (show (0 : ℚ) ≤ lAux ((r : ℚ) / 255) ((g : ℚ) / 255) ((b : ℚ) / 255) * 100 from
      mul_nonneg hl0 (by norm_num))
    (show lAux ((r : ℚ) / 255) ((g : ℚ) / 255) ((b : ℚ) / 255) * 100 ≤ ((100 : ℕ) : ℚ) from
      by push_cast; linarith)
  rw [rgbToHsl_eq]
  refine ⟨H1.1, by exact_mod_cast H1.2, H2.1, by exact_mod_cast H2.2,
    H3.1, by exact_mod_cast H3.2⟩

/-- C9 witness: the amended component ranges instantiated at the integer
triple (10, 20, 30). -/
theorem rgbToHsl_component_ranges_witness :
    ((10 : ℕ) ≤ 255 ∧ (20 : ℕ) ≤ 255 ∧ (30 : ℕ) ≤ 255) ∧
    (0 ≤ (rgbToHsl ((10 : ℕ) : ℚ) ((20 : ℕ) : ℚ) ((30 : ℕ) : ℚ)).1 ∧
      (rgbToHsl ((10 : ℕ) : ℚ) ((20 : ℕ) : ℚ) ((30 : ℕ) : ℚ)).1 ≤ 360 ∧
      0 ≤ (rgbToHsl ((10 : ℕ) : ℚ) ((20 : ℕ) : ℚ) ((30 : ℕ) : ℚ)).2.1 ∧
      (rgbToHsl ((10 : ℕ) : ℚ) ((20 : ℕ) : ℚ) ((30 : ℕ) : ℚ)).2.1 ≤ 100 ∧
      0 ≤ (rgbToHsl ((10 : ℕ) : ℚ) ((20 : ℕ) : ℚ) ((30 : ℕ) : ℚ)).2.2 ∧
      (rgbToHsl ((10 : ℕ) : ℚ) ((20 : ℕ) : ℚ) ((30 : ℕ) : ℚ)).2.2 ≤ 100) :=
  ⟨⟨by decide, by decide, by decide⟩,
   rgbToHsl_component_ranges 10 20 30 (by decide) (by decide) (by decide)⟩

/-- C10: every string the hex regular expression rejects produces exactly
the same 11-stop scale as the genuine black brand color `"#000000"`,
because both parse to the RGB triple (0, 0, 0). -/
theorem generateColorScale_malformed_as_black (B : MathBackend) (s : String)
    (h : matchesHex s = false) :
    generateColorScale B s = generateColorScale B "#000000" :=
  generateColorScale_congr B (by rw [hexToRgb_not_matches h]; rfl)

/-- C10 witness: the malformed input `"not-a-color"` instantiated at the
backend `testBackend`. -/
theorem generateColorScale_malformed_as_black_witness :
    matchesHex "not-a-color" = false ∧
    generateColorScale testBackend "not-a-color" =
      generateColorScale testBackend "#000000" :=
  ⟨by decide, generateColorScale_malformed_as_black testBackend "not-a-color" (by decide)⟩

end ColorScale
